import Mathlib

/-!
Shallow embedding of the hair_Cut_Model repository (a Next.js client page in
`src/app/page.tsx`, present in three concatenated revisions, plus a server-side
auth callback route handler).  Pure string-building and state-transition logic
is translated directly; browser and network effects are modelled by passing
their outcomes as explicit parameters.
-/

namespace HairCut

/-- JS truthiness of a possibly-undefined string (`undefined` and `""` are falsy). -/
def jsTruthy : Option String → Bool
  | none => false
  | some s => !(s == "")

/-- JS `a || b` on possibly-undefined strings: returns `b` when `a` is falsy. -/
def jsOrStr (a b : Option String) : Option String :=
  if jsTruthy a then a else b

/-- `pat` is a leading run of `s` (character list version of startsWith). -/
def leadMatch : List Char → List Char → Bool
  | [], _ => true
  | _ :: _, [] => false
  | a :: as, b :: bs => a == b && leadMatch as bs

/-- `pat` occurs as a contiguous run somewhere in `s`. -/
def subMatch : List Char → List Char → Bool
  | pat, [] => pat.isEmpty
  | pat, c :: rest => leadMatch pat (c :: rest) || subMatch pat rest

/-- `pat` occurs as a substring of `s`. -/
def strContains (s pat : String) : Bool :=
  subMatch pat.toList s.toList

/-- Model of JS `s.startsWith(pre)`. -/
def jsStartsWith (s pre : String) : Bool :=
  leadMatch pre.toList s.toList

/-- Model of JS `s.trim()`: strip leading and trailing whitespace. -/
def jsTrim (s : String) : String :=
  String.mk (((s.toList.dropWhile Char.isWhitespace).reverse.dropWhile
    Char.isWhitespace).reverse)

/-! ## Prompt Composer

`page.tsx` holds three revisions of the page component.  The second revision
(`handleSubmit`, lines 554–612) and the third (`handleSubmit`, lines 1177–1243)
each build the prompt from the three style selections.  The per-axis clause
builders are translated verbatim. -/

/-- Lines 568–570 and 1191–1194: the `haircut` clause (identical in both revisions). -/
def haircut (hairstyle : String) : String :=
  if hairstyle = "default" then
    "Do not change the hair. Keep the hairstyle exactly as it is."
  else
    "Change only the hair to: " ++ hairstyle ++
      ". Keep the person's face, skin, eyes, expression, and all other features exactly the same. Do not alter anything else."

/-- Lines 572–574 and 1196–1199: the `beardcut` clause (identical in both revisions). -/
def beardcut (beardstyle : String) : String :=
  if beardstyle = "default" then
    "Do not change the beard. Keep the existing beard exactly as it is."
  else
    "Change only the beard to: " ++ beardstyle ++
      ". Keep the face and skin exactly the same. Do not alter anything else."

/-- Lines 576–578: the `haircolorcut` clause of the second revision.
When the colour is "default" it is the EMPTY string, not a preservation clause. -/
def haircolorcut_v2 (haircolor : String) : String :=
  if haircolor = "default" then ""
  else
    "Change only the hair color to: " ++ haircolor ++
      ". Keep the hairstyle, face, skin, eyes, and expression the same. Do not alter anything else."

/-- Lines 1201–1204: the `haircolorcut` clause of the third revision
(same shape; the non-default wording drops "the same" after "expression"). -/
def haircolorcut (haircolor : String) : String :=
  if haircolor = "default" then ""
  else
    "Change only the hair color to: " ++ haircolor ++
      ". Keep the hairstyle, face, skin, eyes, and expression. Do not alter anything else."

/-- Line 580 (second revision): `` `${haircut}\n${beardcut}\n${haircolorcut}`.trim() ``. -/
def prompt_v2 (hairstyle beardstyle haircolor : String) : String :=
  jsTrim (haircut hairstyle ++ "\n" ++ beardcut beardstyle ++ "\n" ++
    haircolorcut_v2 haircolor)

/-- Line 1206 (third revision): `[haircut, beardcut, haircolorcut].join("\n")`. -/
def prompt (hairstyle beardstyle haircolor : String) : String :=
  String.intercalate "\n" [haircut hairstyle, beardcut beardstyle, haircolorcut haircolor]

/-! ## Data model: files and page state -/

/-- A browser `File`: a name, a MIME type (`file.type`) and its byte content
(kept as the base64 text a `FileReader` would produce). -/
structure JsFile where
  name : String
  type : String
  content : String
deriving DecidableEq, Repr

/-- The page's React state relevant to the claims: `file`, `previewImage`,
`outputImage`, `error` and `loading` (all three page revisions share these). -/
structure PageState where
  file : Option JsFile
  previewImage : Option String
  outputImage : Option String
  error : String
  loading : Bool
deriving DecidableEq, Repr

/-- Model of `FileReader.readAsDataURL`: the data-URI of a file's content. -/
def fileDataUrl (f : JsFile) : String :=
  "data:" ++ f.type ++ ";base64," ++ f.content

/-! ## Capture Source Selector

Second revision (lines 476–524): `handleFileSelect` stores unconditionally;
the drop handler validates the MIME type but the file-input path does not.
Third revision (lines 1036–1084): every path funnels through `processFile`,
which validates the MIME type. -/

/-- Lines 476–487: store the file, clear error and output, set the preview. -/
def handleFileSelect (s : PageState) (f : JsFile) : PageState :=
  { s with file := some f, error := "", outputImage := none,
           previewImage := some (fileDataUrl f) }

/-- Lines 490–498: second revision's file-input handler — no MIME check. -/
def handleFileChange_v2 (s : PageState) (files : List JsFile) : PageState :=
  match files.head? with
  | some f => handleFileSelect s f
  | none => { s with file := none, previewImage := none }

/-- Lines 511–524: second revision's drop handler — MIME check before storing. -/
def handleDrop_v2 (s : PageState) (files : List JsFile) : PageState :=
  match files with
  | [] => s
  | f :: _ =>
    if jsStartsWith f.type "image/" then handleFileSelect s f
    else { s with error := "Please drop an image file" }

/-- Lines 1036–1052: third revision's `processFile` — rejects non-image MIME
types, otherwise stores the file and derives the preview. -/
def processFile (s : PageState) (f : JsFile) : PageState :=
  if !(jsStartsWith f.type "image/") then
    { s with error := "Please select a valid image file" }
  else
    { s with file := some f, error := "", outputImage := none,
             previewImage := some (fileDataUrl f) }

/-- Lines 1055–1063: third revision's file-input handler, via `processFile`. -/
def handleFileChange_v3 (s : PageState) (files : List JsFile) : PageState :=
  match files.head? with
  | some f => processFile s f
  | none => { s with file := none, previewImage := none }

/-- Lines 1076–1084: third revision's drop handler, via `processFile`. -/
def handleDrop_v3 (s : PageState) (files : List JsFile) : PageState :=
  match files with
  | [] => s
  | f :: _ => processFile s f

/-! ## API response model (first revision, lines 6–31) -/

/-- `InlineData`: base64 `data` plus a mime-type field under either naming. -/
structure InlineData where
  mime_type : Option String
  mimeType : Option String
  data : String
deriving DecidableEq, Repr

/-- `ContentPart`: image data under either naming convention, or text. -/
structure ContentPart where
  inline_data : Option InlineData
  inlineData : Option InlineData
  text : Option String
deriving DecidableEq, Repr

/-- `Candidate.content`. -/
structure CandidateContent where
  parts : List ContentPart
deriving DecidableEq, Repr

/-- `Candidate`. -/
structure Candidate where
  content : CandidateContent
deriving DecidableEq, Repr

/-- `APIResponse`. -/
structure APIResponse where
  candidates : Option (List Candidate)
deriving DecidableEq, Repr

/-- Line 131: `data?.candidates?.[0]?.content?.parts || []`. -/
def candidateParts (resp : APIResponse) : List ContentPart :=
  match resp.candidates with
  | some (c :: _) => c.content.parts
  | _ => []

/-- Line 132/136: `p.inline_data?.data || p.inlineData?.data`. -/
def partImageData (p : ContentPart) : Option String :=
  jsOrStr (p.inline_data.map InlineData.data) (p.inlineData.map InlineData.data)

/-- The truthiness test used by `parts.find(...)` at line 132. -/
def partHasImage (p : ContentPart) : Bool :=
  jsTruthy (partImageData p)

/-- Line 137: `inline_data?.mime_type || inlineData?.mimeType || "image/png"`. -/
def partMime (p : ContentPart) : Option String :=
  jsOrStr (jsOrStr (p.inline_data.bind InlineData.mime_type)
    (p.inlineData.bind InlineData.mimeType)) (some "image/png")

/-- Lines 131–141: find the first image part and build the output data-URI;
`none` when no part carries image data (the "No image returned" path). -/
def parseImage (resp : APIResponse) : Option String :=
  match (candidateParts resp).find? partHasImage with
  | some part =>
      some ("data:" ++ (partMime part).getD "image/png" ++ ";base64," ++
        (partImageData part).getD "")
  | none => none

/-! ## Submission pipeline

The asynchronous effects (`fileToBase64`, `fetch`, `supabase.functions.invoke`)
are modelled by passing their outcome as an explicit argument; the handler is
then the induced state transition.  The returned `Bool` records whether the
network call was performed. -/

/-- Outcome of the first revision's encode + `fetch` phase: the file read
fails, the fetch itself throws, the response has a non-ok status, or it
delivers a parsed JSON body. -/
inductive FetchOutcome where
  | readFail
  | fetchFail (msg : String)
  | httpError (status : Nat)
  | ok (resp : APIResponse)
deriving DecidableEq, Repr

/-- Lines 74–149 (first revision): guard on the file and the API key, set
loading/clear error/clear output, perform the call, parse the response, and
always clear `loading` (the `finally` block). -/
def handleSubmit_v1 (s : PageState) (apiKey : Option String)
    (outcome : FetchOutcome) : PageState × Bool :=
  match s.file with
  | none => ({ s with error := "Please upload a photo" }, false)
  | some _ =>
    if !(jsTruthy apiKey) then
      ({ s with error := "Please set your Gemini API key" }, false)
    else
      let s1 := { s with loading := true, error := "", outputImage := none }
      match outcome with
      | .readFail =>
          ({ s1 with error := "Error generating image. Please try again.",
                     loading := false }, false)
      | .fetchFail msg => ({ s1 with error := msg, loading := false }, true)
      | .httpError n =>
          ({ s1 with error := "HTTP error! status: " ++ toString n,
                     loading := false }, true)
      | .ok resp =>
        match parseImage resp with
        | some uri => ({ s1 with outputImage := some uri, loading := false }, true)
        | none =>
            ({ s1 with error := "No image returned by API",
                       loading := false }, true)

/-- The relay function's `data` payload (third revision, lines 1209–1212). -/
structure RelayData where
  image : Option String
  error : Option String
deriving DecidableEq, Repr

/-- Outcome of the third revision's encode + `invoke` phase. -/
inductive RelayOutcome where
  | readFail
  | invokeError (message : Option String)
  | ok (data : Option RelayData)
deriving DecidableEq, Repr

/-- Lines 1177–1243 (third revision): guard on the file, set loading/clear
error/clear output, invoke the relay, surface its error or the missing-image
error, and always clear `loading` (the `finally` block). -/
def handleSubmit_v3 (s : PageState) (outcome : RelayOutcome) : PageState × Bool :=
  match s.file with
  | none => ({ s with error := "Please upload a photo" }, false)
  | some _ =>
    let s1 := { s with loading := true, error := "", outputImage := none }
    match outcome with
    | .readFail =>
        ({ s1 with error := "Unexpected error occurred while generating image.",
                   loading := false }, false)
    | .invokeError m =>
        ({ s1 with
            error := (jsOrStr m (some "Error calling Supabase Edge Function")).getD "",
            loading := false }, true)
    | .ok d =>
      let img := d.bind RelayData.image
      if jsTruthy img then
        ({ s1 with outputImage := img, loading := false }, true)
      else
        ({ s1 with
            error := (jsOrStr (d.bind RelayData.error)
              (some "No image returned by Gemini API")).getD "",
            loading := false }, true)

/-! ## Auth callback route handler (`GET`, the unnamed server file) -/

/-- The request's query parameters (`searchParams.get` yields `null` or text). -/
structure CallbackRequest where
  code : Option String
  next : Option String
deriving DecidableEq, Repr

/-- Outcome of `supabase.auth.exchangeCodeForSession`. -/
inductive ExchangeResult where
  | ok
  | failed (message : String)
deriving DecidableEq, Repr

/-- Characters `encodeURIComponent` leaves as-is. -/
def isUnreservedURI (c : Char) : Bool :=
  c.isAlphanum || c == '-' || c == '_' || c == '.' || c == '!' || c == '~' ||
    c == '*' || c == '\'' || c == '(' || c == ')'

/-- Upper-case hex digit of `n < 16`. -/
def hexDigit (n : Nat) : Char :=
  if n < 10 then Char.ofNat (48 + n) else Char.ofNat (55 + n)

/-- UTF-8 bytes of a code point. -/
def utf8Bytes (n : Nat) : List Nat :=
  if n < 0x80 then [n]
  else if n < 0x800 then [0xC0 + n / 0x40, 0x80 + n % 0x40]
  else if n < 0x10000 then
    [0xE0 + n / 0x1000, 0x80 + (n / 0x40) % 0x40, 0x80 + n % 0x40]
  else
    [0xF0 + n / 0x40000, 0x80 + (n / 0x1000) % 0x40, 0x80 + (n / 0x40) % 0x40,
      0x80 + n % 0x40]

/-- Model of JS `encodeURIComponent`: percent-encode the UTF-8 bytes of every
character outside the unreserved set. -/
def encodeURIComponent (s : String) : String :=
  String.mk ((s.toList.map fun c =>
    if isUnreservedURI c then [c]
    else ((utf8Bytes c.toNat).map fun b => ['%', hexDigit (b / 16), hexDigit (b % 16)]).flatten).flatten)

/-- Percent-encode only spaces, for reading a URL written with `%20`. -/
def encodeSpaces (s : String) : String :=
  String.mk ((s.toList.map fun c => if c == ' ' then ['%', '2', '0'] else [c]).flatten)

/-- The `GET` handler of the auth callback route: validate `next` (must start
with `/`, else `/`), redirect to the error page when `code` is missing or the
exchange fails, else redirect to the validated `next`.  The result is the
redirect target. -/
def authCallbackGET (req : CallbackRequest) (exchange : ExchangeResult) : String :=
  let next :=
    match req.next with
    | some n => if jsStartsWith n "/" then n else "/"
    | none => "/"
  if !(jsTruthy req.code) then "/auth/error?error=Missing code in callback URL"
  else
    match exchange with
    | .failed m => "/auth/error?error=" ++ encodeURIComponent m
    | .ok => next

/-! ## Small response builders used by the naming-convention claims -/

/-- A response whose single candidate holds the single given part. -/
def singlePartResponse (p : ContentPart) : APIResponse :=
  ⟨some [⟨⟨[p]⟩⟩]⟩

/-- Image payload delivered under the snake_case convention
(`inline_data` with `mime_type`). -/
def snakePart (m : Option String) (d : String) : ContentPart :=
  ⟨some ⟨m, none, d⟩, none, none⟩

/-- The same payload delivered under the camelCase convention
(`inlineData` with `mimeType`). -/
def camelPart (m : Option String) (d : String) : ContentPart :=
  ⟨none, some ⟨none, m, d⟩, none⟩

/-! ## Theorems for the claims -/

set_option maxRecDepth 40000

/-- Claim C1 (counterexample): with all three axes "default" the composed
prompt is just the hair clause, the beard clause and a trailing line break —
it never mentions the hair colour, in either revision, because the
hair-colour default branch yields the empty string, so the prompt does NOT
contain three preservation clauses (one per axis). -/
theorem prompt_allDefault_no_color_clause :
    prompt "default" "default" "default" =
      "Do not change the hair. Keep the hairstyle exactly as it is.\nDo not change the beard. Keep the existing beard exactly as it is.\n"
    ∧ strContains (prompt "default" "default" "default") "color" = false
    ∧ strContains (prompt_v2 "default" "default" "default") "color" = false
    ∧ haircolorcut "default" = ""
    ∧ haircolorcut_v2 "default" = "" := by
  refine ⟨rfl, rfl, rfl, rfl, rfl⟩

/-- Claim C1 (amended): with all three axes "default" the composed prompt
contains exactly the two fixed preservation clauses — hair then beard — and no
clause naming a style value; the hair-colour axis contributes the empty
string, and the lines-568–580 revision trims the resulting trailing newline. -/
theorem prompt_allDefault_two_clauses :
    prompt "default" "default" "default" =
      "Do not change the hair. Keep the hairstyle exactly as it is.\nDo not change the beard. Keep the existing beard exactly as it is.\n"
    ∧ prompt_v2 "default" "default" "default" =
      "Do not change the hair. Keep the hairstyle exactly as it is.\nDo not change the beard. Keep the existing beard exactly as it is."
    ∧ strContains (prompt "default" "default" "default") "Change only" = false := by
  refine ⟨rfl, rfl, rfl⟩

/-- Claim C2: the bald-head hairstyle with default beard and colour composes
to exactly the spec's end-to-end string, trailing newline included (the
`join("\n")` of lines 1190–1206 appends `"\n" ++ ""` after the beard clause). -/
theorem prompt_bald_exact :
    prompt "Bald head, 0–2 mm length, completely shaved, clean and bold appearance;" "default" "default" =
      "Change only the hair to: Bald head, 0–2 mm length, completely shaved, clean and bold appearance;. Keep the person's face, skin, eyes, expression, and all other features exactly the same. Do not alter anything else.\nDo not change the beard. Keep the existing beard exactly as it is.\n" := by
  rfl

/-- Claim C3 (counterexample): with a non-default hairstyle and the other two
axes "default", the composed prompt carries no preservation clause for the
hair-colour axis at all — the word "color" never occurs — so the prompt does
not contain "the preservation clauses of the other two axes". -/
theorem prompt_nonDefault_no_color_clause :
    prompt "spiky mohawk" "default" "default" =
      "Change only the hair to: spiky mohawk. Keep the person's face, skin, eyes, expression, and all other features exactly the same. Do not alter anything else.\nDo not change the beard. Keep the existing beard exactly as it is.\n"
    ∧ strContains (prompt "spiky mohawk" "default" "default") "color" = false := by
  refine ⟨rfl, rfl⟩

/-- Claim C3 (amended): for a selection with one non-default axis the composed
prompt substitutes that exact value into that axis's template; a default hair
or beard axis contributes its fixed preservation clause, while a default
hair-colour axis contributes the empty string; the three segments are joined
with line breaks in the fixed order hair, beard, hair colour. -/
theorem prompt_single_axis_structure (v : String) (hv : v ≠ "default") :
    prompt v "default" "default" =
      "Change only the hair to: " ++ v ++ ". Keep the person's face, skin, eyes, expression, and all other features exactly the same. Do not alter anything else." ++ "\n" ++ "Do not change the beard. Keep the existing beard exactly as it is." ++ "\n"
    ∧ prompt "default" v "default" =
      "Do not change the hair. Keep the hairstyle exactly as it is." ++ "\n" ++ "Change only the beard to: " ++ v ++ ". Keep the face and skin exactly the same. Do not alter anything else." ++ "\n"
    ∧ prompt "default" "default" v =
      "Do not change the hair. Keep the hairstyle exactly as it is." ++ "\n" ++ "Do not change the beard. Keep the existing beard exactly as it is." ++ "\n" ++ "Change only the hair color to: " ++ v ++ ". Keep the hairstyle, face, skin, eyes, and expression. Do not alter anything else." := by
  refine ⟨?_, ?_, ?_⟩ <;>
    simp [prompt, haircut, beardcut, haircolorcut, hv, String.intercalate,
      String.intercalate.go, String.append_assoc] <;>
    (rw [← String.append_assoc]; rfl)

/-- Claim C3 (witness): the structure theorem evaluated at the concrete
non-default value "spiky mohawk". -/
theorem prompt_single_axis_structure_witness :
    prompt "spiky mohawk" "default" "default" =
      "Change only the hair to: " ++ "spiky mohawk" ++ ". Keep the person's face, skin, eyes, expression, and all other features exactly the same. Do not alter anything else." ++ "\n" ++ "Do not change the beard. Keep the existing beard exactly as it is." ++ "\n"
    ∧ prompt "default" "spiky mohawk" "default" =
      "Do not change the hair. Keep the hairstyle exactly as it is." ++ "\n" ++ "Change only the beard to: " ++ "spiky mohawk" ++ ". Keep the face and skin exactly the same. Do not alter anything else." ++ "\n"
    ∧ prompt "default" "default" "spiky mohawk" =
      "Do not change the hair. Keep the hairstyle exactly as it is." ++ "\n" ++ "Do not change the beard. Keep the existing beard exactly as it is." ++ "\n" ++ "Change only the hair color to: " ++ "spiky mohawk" ++ ". Keep the hairstyle, face, skin, eyes, and expression. Do not alter anything else." :=
  prompt_single_axis_structure "spiky mohawk" (by decide)

/-- Claim C4: delivering the same payload (mime-type field and base64 data)
only under `inline_data`/`mime_type` or only under `inlineData`/`mimeType`
makes the response-parsing step produce the identical output data-URI. -/
theorem parse_snake_camel_agree (m : Option String) (d : String) :
    parseImage (singlePartResponse (snakePart m d)) =
      parseImage (singlePartResponse (camelPart m d)) := by
  by_cases hd : d = ""
  · cases m <;>
      simp [parseImage, candidateParts, singlePartResponse, snakePart, camelPart,
        partHasImage, partImageData, partMime, jsOrStr, jsTruthy, List.find?, hd]
  · have hdb : (d == "") = false := by simp [hd]
    cases m with
    | none =>
      simp [parseImage, candidateParts, singlePartResponse, snakePart, camelPart,
        partHasImage, partImageData, partMime, jsOrStr, jsTruthy, List.find?, hdb]
    | some a =>
      by_cases ha : a = ""
      · simp [parseImage, candidateParts, singlePartResponse, snakePart, camelPart,
          partHasImage, partImageData, partMime, jsOrStr, jsTruthy, List.find?, hdb, ha]
      · have hab : (a == "") = false := by simp [ha]
        simp [parseImage, candidateParts, singlePartResponse, snakePart, camelPart,
          partHasImage, partImageData, partMime, jsOrStr, jsTruthy, List.find?, hdb, hab]

/-- Claim C4 (witness): the agreement theorem evaluated at the concrete
payload mime "image/jpeg", data "QUJD". -/
theorem parse_snake_camel_agree_witness :
    parseImage (singlePartResponse (snakePart (some "image/jpeg") "QUJD")) =
      parseImage (singlePartResponse (camelPart (some "image/jpeg") "QUJD")) :=
  parse_snake_camel_agree (some "image/jpeg") "QUJD"

/-- Claim C5: when no candidate part carries inline image data, the first
revision's submit handler ends with the error "No image returned by API" and
`outputImage = none`; the third revision's handler behaves the same on a relay
payload without an image, with its "No image returned by Gemini API" message. -/
theorem submit_no_image_sets_error (s : PageState) (f : JsFile) (key : Option String)
    (resp : APIResponse) (d : Option RelayData)
    (hf : s.file = some f) (hk : jsTruthy key = true)
    (hno : ∀ p ∈ candidateParts resp, partHasImage p = false)
    (hri : jsTruthy (d.bind RelayData.image) = false)
    (hre : jsTruthy (d.bind RelayData.error) = false) :
    (handleSubmit_v1 s key (FetchOutcome.ok resp)).1.error = "No image returned by API"
    ∧ (handleSubmit_v1 s key (FetchOutcome.ok resp)).1.outputImage = none
    ∧ (handleSubmit_v3 s (RelayOutcome.ok d)).1.error = "No image returned by Gemini API"
    ∧ (handleSubmit_v3 s (RelayOutcome.ok d)).1.outputImage = none := by
  have hfind : (candidateParts resp).find? partHasImage = none := by
    rw [List.find?_eq_none]
    intro p hp
    simp [hno p hp]
  refine ⟨?_, ?_, ?_, ?_⟩ <;>
    simp [handleSubmit_v1, handleSubmit_v3, hf, hk, parseImage, hfind, hri, hre, jsOrStr]

/-- Claim C5 (witness): a submission with a photo and key over a response
whose only part is text ends in the no-image error with no output image. -/
theorem submit_no_image_sets_error_witness :
    (handleSubmit_v1 ⟨some ⟨"me.png", "image/png", "QUJD"⟩, none, none, "", false⟩
        (some "k") (FetchOutcome.ok ⟨some [⟨⟨[⟨none, none, some "hello"⟩]⟩⟩]⟩)).1.error =
      "No image returned by API"
    ∧ (handleSubmit_v1 ⟨some ⟨"me.png", "image/png", "QUJD"⟩, none, none, "", false⟩
        (some "k") (FetchOutcome.ok ⟨some [⟨⟨[⟨none, none, some "hello"⟩]⟩⟩]⟩)).1.outputImage = none
    ∧ (handleSubmit_v3 ⟨some ⟨"me.png", "image/png", "QUJD"⟩, none, none, "", false⟩
        (RelayOutcome.ok (some ⟨none, none⟩))).1.error = "No image returned by Gemini API"
    ∧ (handleSubmit_v3 ⟨some ⟨"me.png", "image/png", "QUJD"⟩, none, none, "", false⟩
        (RelayOutcome.ok (some ⟨none, none⟩))).1.outputImage = none :=
  submit_no_image_sets_error
    ⟨some ⟨"me.png", "image/png", "QUJD"⟩, none, none, "", false⟩
    ⟨"me.png", "image/png", "QUJD"⟩ (some "k")
    ⟨some [⟨⟨[⟨none, none, some "hello"⟩]⟩⟩]⟩ (some ⟨none, none⟩)
    rfl rfl (by decide) rfl rfl

/-- Claim C6 (counterexample): in the lines-476–524 revision the file-picker
path (`handleFileChange` → `handleFileSelect`) stores a `text/plain` file as
the Selected Image with no error, so a non-image file supplied via the file
picker is not rejected. -/
theorem picker_v2_accepts_nonimage :
    (handleFileChange_v2 ⟨none, none, none, "", false⟩
        [⟨"notes.txt", "text/plain", "Zm9v"⟩]).file =
      some ⟨"notes.txt", "text/plain", "Zm9v"⟩
    ∧ (handleFileChange_v2 ⟨none, none, none, "", false⟩
        [⟨"notes.txt", "text/plain", "Zm9v"⟩]).error = ""
    ∧ jsStartsWith "text/plain" "image/" = false := by
  refine ⟨rfl, rfl, rfl⟩

/-- Claim C6 (amended): a file whose MIME type does not start with "image/"
is rejected — error set, file/preview/output untouched — by the lines
1036–1084 revision on every path (`processFile`, picker and drop) and by the
lines-476–524 revision on the drag-and-drop path; that revision's file-picker
path performs no MIME validation. -/
theorem nonimage_file_rejected (s : PageState) (f : JsFile) (rest : List JsFile)
    (h : jsStartsWith f.type "image/" = false) :
    processFile s f = { s with error := "Please select a valid image file" }
    ∧ handleFileChange_v3 s (f :: rest) = { s with error := "Please select a valid image file" }
    ∧ handleDrop_v3 s (f :: rest) = { s with error := "Please select a valid image file" }
    ∧ handleDrop_v2 s (f :: rest) = { s with error := "Please drop an image file" } := by
  refine ⟨?_, ?_, ?_, ?_⟩ <;>
    simp [processFile, handleFileChange_v3, handleDrop_v3, handleDrop_v2, h]

/-- Claim C6 (witness): the rejection theorem evaluated on a `text/plain`
file against the initial page state. -/
theorem nonimage_file_rejected_witness :
    processFile ⟨none, none, none, "", false⟩ ⟨"notes.txt", "text/plain", "Zm9v"⟩ =
      { (⟨none, none, none, "", false⟩ : PageState) with error := "Please select a valid image file" }
    ∧ handleFileChange_v3 ⟨none, none, none, "", false⟩ [⟨"notes.txt", "text/plain", "Zm9v"⟩] =
      { (⟨none, none, none, "", false⟩ : PageState) with error := "Please select a valid image file" }
    ∧ handleDrop_v3 ⟨none, none, none, "", false⟩ [⟨"notes.txt", "text/plain", "Zm9v"⟩] =
      { (⟨none, none, none, "", false⟩ : PageState) with error := "Please select a valid image file" }
    ∧ handleDrop_v2 ⟨none, none, none, "", false⟩ [⟨"notes.txt", "text/plain", "Zm9v"⟩] =
      { (⟨none, none, none, "", false⟩ : PageState) with error := "Please drop an image file" } :=
  nonimage_file_rejected ⟨none, none, none, "", false⟩
    ⟨"notes.txt", "text/plain", "Zm9v"⟩ [] rfl

/-- Claim C7: with no Selected Image both submit handlers fail fast — error
"Please upload a photo", no network call, everything else (loading included)
unchanged; the direct-API revision likewise fails fast on a missing/empty API
key with "Please set your Gemini API key". -/
theorem submit_fails_fast_without_file_or_key (s : PageState) (key : Option String)
    (o : FetchOutcome) (r : RelayOutcome) (f : JsFile) :
    (s.file = none →
      handleSubmit_v1 s key o = ({ s with error := "Please upload a photo" }, false))
    ∧ (s.file = some f → jsTruthy key = false →
      handleSubmit_v1 s key o = ({ s with error := "Please set your Gemini API key" }, false))
    ∧ (s.file = none →
      handleSubmit_v3 s r = ({ s with error := "Please upload a photo" }, false)) := by
  refine ⟨?_, ?_, ?_⟩
  · intro h; simp [handleSubmit_v1, h]
  · intro h hk; simp [handleSubmit_v1, h, hk]
  · intro h; simp [handleSubmit_v3, h]

/-- Claim C7 (witness): the fail-fast theorem applied to a file-less state,
to a state with a file but an absent API key, and to the relay revision. -/
theorem submit_fails_fast_without_file_or_key_witness :
    handleSubmit_v1 ⟨none, none, none, "", false⟩ (some "k") (FetchOutcome.ok ⟨none⟩) =
      ({ (⟨none, none, none, "", false⟩ : PageState) with error := "Please upload a photo" }, false)
    ∧ handleSubmit_v1 ⟨some ⟨"me.png", "image/png", "QUJD"⟩, none, none, "", false⟩ none
        (FetchOutcome.ok ⟨none⟩) =
      ({ (⟨some ⟨"me.png", "image/png", "QUJD"⟩, none, none, "", false⟩ : PageState) with
          error := "Please set your Gemini API key" }, false)
    ∧ handleSubmit_v3 ⟨none, none, none, "", false⟩ (RelayOutcome.ok none) =
      ({ (⟨none, none, none, "", false⟩ : PageState) with error := "Please upload a photo" }, false) :=
  ⟨(submit_fails_fast_without_file_or_key ⟨none, none, none, "", false⟩ (some "k")
      (FetchOutcome.ok ⟨none⟩) (RelayOutcome.ok none) ⟨"me.png", "image/png", "QUJD"⟩).1 rfl,
   (submit_fails_fast_without_file_or_key
      ⟨some ⟨"me.png", "image/png", "QUJD"⟩, none, none, "", false⟩ none
      (FetchOutcome.ok ⟨none⟩) (RelayOutcome.ok none) ⟨"me.png", "image/png", "QUJD"⟩).2.1 rfl rfl,
   (submit_fails_fast_without_file_or_key ⟨none, none, none, "", false⟩ (some "k")
      (FetchOutcome.ok ⟨none⟩) (RelayOutcome.ok none) ⟨"me.png", "image/png", "QUJD"⟩).2.2 rfl⟩

/-- Claim C8: once a submission starts (file present, and key present in the
direct-API revision) the `finally` block leaves `loading = false` on every
completion path — success, read failure, transport failure, relay-reported
error and response-shape failure — in both submit handlers. -/
theorem submit_always_clears_loading (s : PageState) (f : JsFile) (key : Option String)
    (o : FetchOutcome) (r : RelayOutcome)
    (hf : s.file = some f) (hk : jsTruthy key = true) :
    (handleSubmit_v1 s key o).1.loading = false
    ∧ (handleSubmit_v3 s r).1.loading = false := by
  constructor
  · cases o with
    | ok resp =>
      cases hp : parseImage resp <;> simp [handleSubmit_v1, hf, hk, hp]
    | _ => simp [handleSubmit_v1, hf, hk]
  · cases r with
    | ok d =>
      cases hi : jsTruthy (d.bind RelayData.image) <;> simp [handleSubmit_v3, hf, hi]
    | _ => simp [handleSubmit_v3, hf]

/-- Claim C8 (witness): loading is cleared for a concrete started submission
in both revisions. -/
theorem submit_always_clears_loading_witness :
    (handleSubmit_v1 ⟨some ⟨"me.png", "image/png", "QUJD"⟩, none, none, "", false⟩
        (some "k") (FetchOutcome.ok ⟨none⟩)).1.loading = false
    ∧ (handleSubmit_v3 ⟨some ⟨"me.png", "image/png", "QUJD"⟩, none, none, "", false⟩
        (RelayOutcome.ok none)).1.loading = false :=
  submit_always_clears_loading
    ⟨some ⟨"me.png", "image/png", "QUJD"⟩, none, none, "", false⟩
    ⟨"me.png", "image/png", "QUJD"⟩ (some "k")
    (FetchOutcome.ok ⟨none⟩) (RelayOutcome.ok none) rfl rfl

/-- Claim C9: a request without a `code` parameter is redirected to the error
page whose target, with spaces percent-encoded, reads
`/auth/error?error=Missing%20code%20in%20callback%20URL`; and with a `code`
and a `next` that does not begin with "/", the success redirect is `/`. -/
theorem auth_callback_redirects (c nxt : String) (ex : ExchangeResult)
    (nopt : Option String) (hc : c ≠ "") (hn : jsStartsWith nxt "/" = false) :
    encodeSpaces (authCallbackGET ⟨none, nopt⟩ ex) =
      "/auth/error?error=Missing%20code%20in%20callback%20URL"
    ∧ authCallbackGET ⟨some c, some nxt⟩ ExchangeResult.ok = "/" := by
  constructor
  · simp [authCallbackGET, jsTruthy]
    rfl
  · simp [authCallbackGET, jsTruthy, hc, hn]

/-- Claim C9 (witness): the redirect theorem at `code = "authcode123"` and
`next = "https://evil.example"`. -/
theorem auth_callback_redirects_witness :
    encodeSpaces (authCallbackGET ⟨none, some "https://evil.example"⟩ ExchangeResult.ok) =
      "/auth/error?error=Missing%20code%20in%20callback%20URL"
    ∧ authCallbackGET ⟨some "authcode123", some "https://evil.example"⟩ ExchangeResult.ok = "/" :=
  auth_callback_redirects "authcode123" "https://evil.example" ExchangeResult.ok
    (some "https://evil.example") (by decide) rfl

/-- Claim C10: the `next` guard only checks for a leading "/", so the
protocol-relative external target `//evil.example` passes it and becomes the
success redirect target verbatim — the guard does not reject every external
redirect. -/
theorem auth_callback_accepts_protocol_relative :
    authCallbackGET ⟨some "authcode123", some "//evil.example"⟩ ExchangeResult.ok = "//evil.example"
    ∧ jsStartsWith "//evil.example" "/" = true
    ∧ "//evil.example" ≠ "/" := by
  refine ⟨rfl, rfl, by decide⟩

end HairCut
